import Mathlib

/-!
Shallow embedding of `tal/enums.py`: the four enumerations (`FileFormat`,
`HFormat`, `GridFormat`, `VolumeFormat`, `CameraSystem`) and their derived
query methods, with Python failure modes (`assert` failures, missing-attribute
lookups) made explicit through `Except`.
-/

/-- Failure modes of the Python methods embedded here: an `assert` statement
that fails raises `AssertionError`; looking up a method a class does not
define raises `AttributeError`. -/
inductive PyError where
  | assertionError
  | attributeError
deriving DecidableEq

/-- Error raised when format autodetection cannot determine a concrete
format (spec §7, `FormatResolutionError`). -/
inductive FormatResolutionError where
  | noFormatMatches
deriving DecidableEq

/-- File formats for NLOSCaptureData files (`class FileFormat(Enum)`),
constructors in source order. -/
inductive FileFormat where
  | AUTODETECT
  | HDF5_ZNLOS
  | HDF5_NLOS_DIRAC
  | HDF5_TAL
  | MAT_PHASOR_FIELDS
  | MAT_PHASOR_FIELD_DIFFRACTION
deriving DecidableEq, Fintype

/-- The six `FileFormat` members, in source order. -/
def allFileFormats : List FileFormat :=
  [FileFormat.AUTODETECT,
   FileFormat.HDF5_ZNLOS,
   FileFormat.HDF5_NLOS_DIRAC,
   FileFormat.HDF5_TAL,
   FileFormat.MAT_PHASOR_FIELDS,
   FileFormat.MAT_PHASOR_FIELD_DIFFRACTION]

/-- Dimensions specification for impulse response data H
(`class HFormat(Enum)`). -/
inductive HFormat where
  | UNKNOWN
  | T_Sx_Sy
  | T_Lx_Ly_Sx_Sy
  | T_Si
  | T_Li_Si
deriving DecidableEq, Fintype

/-- `HFormat.time_dim`: asserts `self` is one of the four concrete variants
(an `assert` failure raises `AssertionError`), then returns 0. -/
def HFormat.time_dim (self : HFormat) : Except PyError Nat :=
  if self ∈ [HFormat.T_Sx_Sy, HFormat.T_Lx_Ly_Sx_Sy, HFormat.T_Si,
             HFormat.T_Li_Si]
  then Except.ok 0
  else Except.error PyError.assertionError

/-- Dimensions specification for grid data (`class GridFormat(Enum)`).
The class body declares the three members and nothing else: it defines
no methods. -/
inductive GridFormat where
  | UNKNOWN
  | N_3
  | X_Y_3
deriving DecidableEq, Fintype

/-- Invoking `xyz_dim_is_last` on a `GridFormat` value: the `GridFormat`
class body defines no method of that name (no method at all), so Python
attribute lookup fails with `AttributeError` on every variant, before any
precondition could be checked. -/
def GridFormat.call_xyz_dim_is_last (_self : GridFormat) : Except PyError Bool :=
  Except.error PyError.attributeError

/-- Dimensions specification for volume data (`class VolumeFormat(Enum)`). -/
inductive VolumeFormat where
  | UNKNOWN
  | N_3
  | X_Y_Z_3
  | X_Y_3
deriving DecidableEq, Fintype

/-- `VolumeFormat.xyz_dim_is_last`: asserts `self` is one of the three
concrete variants (an `assert` failure raises `AssertionError`), then
returns `True`. -/
def VolumeFormat.xyz_dim_is_last (self : VolumeFormat) : Except PyError Bool :=
  if self ∈ [VolumeFormat.N_3, VolumeFormat.X_Y_Z_3, VolumeFormat.X_Y_3]
  then Except.ok true
  else Except.error PyError.assertionError

/-- Virtual camera systems for reconstruction
(`class CameraSystem(Enum)`), constructors in source order. -/
inductive CameraSystem where
  | DIRECT_LIGHT
  | CONFOCAL_TIME_GATED
  | PROJECTOR_CAMERA
  | PROJECTOR_CAMERA_T0
  | TRANSIENT
  | TRANSIENT_T0
deriving DecidableEq, Fintype

/-- `CameraSystem.bp_accounts_for_d_2`: membership test against the list
written in the source. -/
def CameraSystem.bp_accounts_for_d_2 (self : CameraSystem) : Bool :=
  decide (self ∈ [CameraSystem.DIRECT_LIGHT,
                  CameraSystem.PROJECTOR_CAMERA,
                  CameraSystem.PROJECTOR_CAMERA_T0,
                  CameraSystem.CONFOCAL_TIME_GATED])

/-- `CameraSystem.is_transient`: membership test against the list written
in the source. -/
def CameraSystem.is_transient (self : CameraSystem) : Bool :=
  decide (self ∈ [CameraSystem.TRANSIENT,
                  CameraSystem.CONFOCAL_TIME_GATED,
                  CameraSystem.PROJECTOR_CAMERA])

/-- `CameraSystem.implements_projector`: membership test against the list
written in the source. -/
def CameraSystem.implements_projector (self : CameraSystem) : Bool :=
  decide (self ∈ [CameraSystem.PROJECTOR_CAMERA,
                  CameraSystem.PROJECTOR_CAMERA_T0])

/-- The triple of derived boolean properties of a `CameraSystem` value, in
the order (accountsForInverseSquareFalloff, isTransient,
implementsProjector). -/
def CameraSystem.flags (c : CameraSystem) : Bool × Bool × Bool :=
  (c.bp_accounts_for_d_2, c.is_transient, c.implements_projector)

/-- The derived-property table of spec §3, written from the spec's words
(not from the source), for the refinement comparison with
`CameraSystem.flags`: accountsForInverseSquareFalloff is true for
DirectLight, ProjectorCamera, ProjectorCameraT0, ConfocalTimeGated;
isTransient is true for Transient, ConfocalTimeGated, ProjectorCamera;
implementsProjector is true for ProjectorCamera, ProjectorCameraT0;
each false otherwise. -/
def specCameraTable : CameraSystem → Bool × Bool × Bool
  | CameraSystem.DIRECT_LIGHT => (true, false, false)
  | CameraSystem.CONFOCAL_TIME_GATED => (true, true, false)
  | CameraSystem.PROJECTOR_CAMERA => (true, true, true)
  | CameraSystem.PROJECTOR_CAMERA_T0 => (true, false, true)
  | CameraSystem.TRANSIENT => (false, true, false)
  | CameraSystem.TRANSIENT_T0 => (false, false, false)

/-- Evaluation of a derived-property query as an explicit state-passing
call over an ambient state `σ`: the method bodies in the source are single
membership tests over `self`, with no assignment, attribute write or I/O,
so the call returns its boolean result and passes the state through. -/
def CameraSystem.runQuery {σ : Type} (q : CameraSystem → Bool)
    (c : CameraSystem) (s : σ) : Bool × σ :=
  (q c, s)

/-- Two successive state-passing evaluations of the query `q` on `c`
agree, and the state after the first call is the initial state. -/
def CameraSystem.doubleCallAgrees {σ : Type} (q : CameraSystem → Bool)
    (c : CameraSystem) (s : σ) : Prop :=
  (CameraSystem.runQuery q c (CameraSystem.runQuery q c s).2).1
      = (CameraSystem.runQuery q c s).1
    ∧ (CameraSystem.runQuery q c s).2 = s

/-- Modelled from the spec: `FormatCatalog.resolve` is not part of the
repository sources available here (only the `FileFormat` enumeration is),
so the resolution operation is modelled from spec §4.1: a concrete
(non-Autodetect) `declared` format is returned unchanged, while
`AUTODETECT` is resolved by consulting the extension/content sniffing
procedure (abstracted as the parameter `sniff`), which may fail with a
`FormatResolutionError`. -/
def FormatCatalog.resolve (sniff : String → Except FormatResolutionError FileFormat)
    (path : String) (declared : FileFormat) :
    Except FormatResolutionError FileFormat :=
  if declared = FileFormat.AUTODETECT then sniff path else Except.ok declared

/-- C1: for each of the 6 `CameraSystem` variants, the triple
(bp_accounts_for_d_2, is_transient, implements_projector) computed by the
source's methods matches exactly the table of spec §3. -/
theorem cameraSystem_flags_match_spec_table :
    ∀ c : CameraSystem, CameraSystem.flags c = specCameraTable c := by
  decide

/-- C2 counterexample: the claim says `xyz_dim_is_last()` on the
non-UNKNOWN variant `GridFormat.N_3` returns true, but `GridFormat`
defines no such method, so the call fails with `AttributeError` instead of
returning true. -/
theorem gridFormat_N_3_query_does_not_return_true :
    GridFormat.call_xyz_dim_is_last GridFormat.N_3 ≠ Except.ok true := by
  intro h
  exact Except.noConfusion h

/-- C2 amended: `GridFormat` exposes no `xyz_dim_is_last` query at all;
invoking it on any `GridFormat` variant (UNKNOWN included) fails with an
`AttributeError`. (The query exists only on `VolumeFormat`.) -/
theorem gridFormat_has_no_xyz_query :
    ∀ g : GridFormat,
      GridFormat.call_xyz_dim_is_last g = Except.error PyError.attributeError := by
  intro g
  rfl

/-- C3: `HFormat.time_dim` returns 0 on every variant except UNKNOWN, and
on UNKNOWN it fails with an assertion (precondition) error instead of
returning a value. -/
theorem hFormat_time_dim_spec :
    ∀ h : HFormat,
      HFormat.time_dim h =
        if h = HFormat.UNKNOWN then Except.error PyError.assertionError
        else Except.ok 0 := by
  intro h
  cases h <;> rfl

/-- C4: `VolumeFormat.xyz_dim_is_last` returns true on every variant
except UNKNOWN, and on UNKNOWN it fails with an assertion (precondition)
error instead of returning a guessed value. -/
theorem volumeFormat_xyz_dim_is_last_spec :
    ∀ v : VolumeFormat,
      VolumeFormat.xyz_dim_is_last v =
        if v = VolumeFormat.UNKNOWN then Except.error PyError.assertionError
        else Except.ok true := by
  intro v
  cases v <;> rfl

/-- C5: for every concrete (non-AUTODETECT) format `d`, every sniffing
procedure and every path, `FormatCatalog.resolve` returns `d` unchanged,
regardless of what the sniffing procedure would say about the file. -/
theorem resolve_returns_concrete_format_unchanged
    (sniff : String → Except FormatResolutionError FileFormat)
    (path : String) (d : FileFormat) (hd : d ≠ FileFormat.AUTODETECT) :
    FormatCatalog.resolve sniff path d = Except.ok d := by
  unfold FormatCatalog.resolve
  simp [hd]

/-- C5 witness: resolving a declared `HDF5_TAL` format on a concrete path
returns `HDF5_TAL`, even when the sniffing procedure would fail. -/
theorem resolve_returns_concrete_format_unchanged_witness :
    FormatCatalog.resolve
        (fun _ => Except.error FormatResolutionError.noFormatMatches)
        "capture.h5" FileFormat.HDF5_TAL = Except.ok FileFormat.HDF5_TAL :=
  resolve_returns_concrete_format_unchanged
    (fun _ => Except.error FormatResolutionError.noFormatMatches)
    "capture.h5" FileFormat.HDF5_TAL (by decide)

/-- C6: each of the three derived `CameraSystem` queries is pure and
deterministic: for every variant `c` and every ambient state `s`, two
successive state-passing evaluations of the same query on `c` yield
identical results and leave the state unchanged. -/
theorem cameraSystem_queries_pure {σ : Type} (c : CameraSystem) (s : σ) :
    CameraSystem.doubleCallAgrees CameraSystem.bp_accounts_for_d_2 c s
    ∧ CameraSystem.doubleCallAgrees CameraSystem.is_transient c s
    ∧ CameraSystem.doubleCallAgrees CameraSystem.implements_projector c s :=
  ⟨⟨rfl, rfl⟩, ⟨rfl, rfl⟩, ⟨rfl, rfl⟩⟩

/-- C7: `FileFormat` is the closed set of exactly the six listed variants:
every value is in the list, the list has no duplicates, and its length
is 6. -/
theorem fileFormat_is_closed_set_of_six :
    (∀ f : FileFormat, f ∈ allFileFormats)
    ∧ allFileFormats.Nodup ∧ allFileFormats.length = 6 := by
  refine ⟨?_, ?_, rfl⟩
  · decide
  · decide

/-- C8: the mapping from a `CameraSystem` variant to its flag triple is
injective: equal triples force equal variants. -/
theorem cameraSystem_flags_injective :
    ∀ a b : CameraSystem, CameraSystem.flags a = CameraSystem.flags b → a = b := by
  decide

/-- C8 witness: the injectivity theorem applied at the concrete pair
(PROJECTOR_CAMERA, PROJECTOR_CAMERA). -/
theorem cameraSystem_flags_injective_witness :
    CameraSystem.PROJECTOR_CAMERA = CameraSystem.PROJECTOR_CAMERA :=
  cameraSystem_flags_injective
    CameraSystem.PROJECTOR_CAMERA CameraSystem.PROJECTOR_CAMERA rfl

/-- C9: every `CameraSystem` variant for which `implements_projector` is
true also has `bp_accounts_for_d_2` true. -/
theorem implements_projector_accounts_for_d_2 :
    ∀ c : CameraSystem,
      CameraSystem.implements_projector c = true →
      CameraSystem.bp_accounts_for_d_2 c = true := by
  decide

/-- C9 witness: the theorem applied at PROJECTOR_CAMERA, whose
`implements_projector` flag is true. -/
theorem implements_projector_accounts_for_d_2_witness :
    CameraSystem.bp_accounts_for_d_2 CameraSystem.PROJECTOR_CAMERA = true :=
  implements_projector_accounts_for_d_2 CameraSystem.PROJECTOR_CAMERA (by decide)

/-- C10: the three single-instant (t = 0) variants DIRECT_LIGHT,
TRANSIENT_T0 and PROJECTOR_CAMERA_T0 all have `is_transient` false. -/
theorem single_instant_variants_not_transient :
    CameraSystem.is_transient CameraSystem.DIRECT_LIGHT = false
    ∧ CameraSystem.is_transient CameraSystem.TRANSIENT_T0 = false
    ∧ CameraSystem.is_transient CameraSystem.PROJECTOR_CAMERA_T0 = false := by
  decide
